import Mathlib

/-!
Verification of the results-analyzer pipeline in `src/Nicolaas/evaluator.py`
(minimization variant, namespace `Evaluator`) and
`src/Nicolaas/evaluator_v2.py` (maximization variant, namespace `EvaluatorV2`).

Modelling conventions:
* A cell that can be empty in the CSV (pandas `NaN`) is an `Option`;
  numeric cells are exact rationals `ℚ`.  `seed` is the run identifier and is
  always present (the data-model invariant: it is a column guaranteed non-null
  per row), so it is a plain `ℚ`.
* `numpy.sqrt`, used implicitly by pandas' `std`, is an external numeric
  collaborator; the analyzers are parameterized over it (`sq : ℚ → ℚ`).
  pandas' sample standard deviation (`ddof = 1`) is `NaN` for a group of
  fewer than two rows; that undefined value is modelled as `none`.
* `pandas.read_csv` together with the file system is the collaborator
  `fs : String → Option (List Row)`; `fs path = none` models
  `FileNotFoundError`.
* pandas' `groupby` sorts the group keys; every output the claims inspect is
  either re-sorted afterwards (`sort_values`) or inspected only up to
  membership or up to "which rows form the group", so the keys are kept here
  in first-occurrence (`dedup`) order.  Concrete tables used below list their
  rows with keys already in pandas' sorted key order, so the two orders agree
  on them.
* `groupby` on a key column drops the rows whose key is `NaN` (its default
  `dropna=True`); a filter on the key columns models this.
* `sort_values` sorts only by the named column; `List.insertionSort` realizes
  it (tie order among equal keys is unspecified in the source, which uses an
  unstable quicksort).
-/

set_option maxRecDepth 8000

namespace Nicolaas

/-- One raw row of `experiment_results_detailed.csv` as `pd.read_csv` delivers
it.  `none` is a missing value (pandas `NaN`).  `op_set` is already a textual
rendering of the operator tuple when present. -/
structure Row where
  strategy : Option String
  alpha : Option ℚ
  op_set : Option String
  seed : ℚ
  final_obj : ℚ
  total_time : ℚ
  iterations : ℚ
deriving DecidableEq, Repr

/-- One row after `load_and_prepare_data` added the `op_set_str` column. -/
structure PreparedRow where
  strategy : Option String
  alpha : Option ℚ
  op_set : Option String
  op_set_str : String
  seed : ℚ
  final_obj : ℚ
  total_time : ℚ
  iterations : ℚ
deriving DecidableEq, Repr

/-- Python `str()` as applied by `df['op_set'].astype(str)`: a present value
is already a string and is kept; a missing value (`NaN`) renders as the
literal string `"nan"`. -/
def strOfOpSet (o : Option String) : String := o.getD "nan"

/-- The row transformation of `load_and_prepare_data`:
`df['op_set_str'] = df['op_set'].astype(str)`. -/
def prepare (r : Row) : PreparedRow :=
  { strategy := r.strategy, alpha := r.alpha, op_set := r.op_set,
    op_set_str := strOfOpSet r.op_set, seed := r.seed,
    final_obj := r.final_obj, total_time := r.total_time,
    iterations := r.iterations }

/-- Function `load_and_prepare_data` (both variants, evaluator.py lines 12-28):
`pd.read_csv` failing with `FileNotFoundError` (`fs path = none`) is caught
and reported as `None`; otherwise every row gets the `op_set_str` column. -/
def load_and_prepare_data (fs : String → Option (List Row)) (path : String) :
    Option (List PreparedRow) :=
  (fs path).map (List.map prepare)

/-- pandas `mean` of a column. -/
def qmean (xs : List ℚ) : ℚ := xs.sum / (xs.length : ℚ)

/-- The sample variance (`ddof = 1`) under pandas `std`'s square root. -/
def sampleVar (xs : List ℚ) : ℚ :=
  ((xs.map fun x => (x - qmean xs) ^ 2).sum) / ((xs.length : ℚ) - 1)

/-- The `groupby(['strategy', 'alpha', 'op_set_str'])` key of a row, `none`
when a key cell is `NaN` (such a row is dropped by `groupby`).
`op_set_str` is a genuine string, never `NaN`. -/
def rowKey (r : PreparedRow) : Option (String × ℚ × String) :=
  r.strategy.bind fun s => r.alpha.map fun a => (s, a, r.op_set_str)

/-- Whether a row belongs to quality-summary group `k`. -/
def matchesKey (k : String × ℚ × String) (r : PreparedRow) : Bool :=
  decide (r.strategy = some k.1 ∧ r.alpha = some k.2.1 ∧ r.op_set_str = k.2.2)

/-- The distinct `(strategy, alpha, op_set_str)` group keys of the table. -/
def qualityKeys (df : List PreparedRow) : List (String × ℚ × String) :=
  (df.filterMap rowKey).dedup

/-- The rows forming quality-summary group `k`. -/
def groupRows (df : List PreparedRow) (k : String × ℚ × String) :
    List PreparedRow :=
  df.filter (matchesKey k)

/-- The `final_obj` column of group `k`. -/
def groupObjs (df : List PreparedRow) (k : String × ℚ × String) : List ℚ :=
  (groupRows df k).map PreparedRow.final_obj

/-- pandas `std` of `final_obj` over group `k`: the sample standard deviation,
`NaN` (here `none`) when the group has fewer than two rows. -/
def stdObj (sq : ℚ → ℚ) (df : List PreparedRow) (k : String × ℚ × String) :
    Option ℚ :=
  if 2 ≤ (groupRows df k).length then some (sq (sampleVar (groupObjs df k)))
  else none

/-- One row of the quality/robustness summary. -/
structure QualityRow where
  strategy : String
  alpha : ℚ
  op_set_str : String
  mean_obj : ℚ
  std_obj : Option ℚ
  mean_time : ℚ
  num_runs : ℕ
  CV_obj : Option ℚ
deriving DecidableEq, Repr

/-- The group key a quality-summary row carries. -/
def qKey (q : QualityRow) : String × ℚ × String :=
  (q.strategy, q.alpha, q.op_set_str)

/-- The aggregation of `analyze_quality_and_robustness` for one group: mean
and sample std of `final_obj`, mean of `total_time`, count of the (non-null)
`seed` column, and the `CV_obj` column derived from std and mean (`NaN`,
that is `none`, whenever the std is).  The two variants differ only in the
`cv` formula. -/
def mkQualityRow (sq : ℚ → ℚ) (cv : ℚ → ℚ → ℚ) (df : List PreparedRow)
    (k : String × ℚ × String) : QualityRow :=
  { strategy := k.1, alpha := k.2.1, op_set_str := k.2.2,
    mean_obj := qmean (groupObjs df k),
    std_obj := stdObj sq df k,
    mean_time := qmean ((groupRows df k).map PreparedRow.total_time),
    num_runs := ((groupRows df k).map PreparedRow.seed).length,
    CV_obj := (stdObj sq df k).map fun sd => cv sd (qmean (groupObjs df k)) }

/-- Ascending order on `mean_obj` (`sort_values(by='mean_obj',
ascending=True)`). -/
def qLe (a b : QualityRow) : Prop := a.mean_obj ≤ b.mean_obj

/-- Descending order on `mean_obj` (`ascending=False`). -/
def qGe (a b : QualityRow) : Prop := b.mean_obj ≤ a.mean_obj

instance : DecidableRel qLe :=
  fun a b => inferInstanceAs (Decidable (a.mean_obj ≤ b.mean_obj))

instance : DecidableRel qGe :=
  fun a b => inferInstanceAs (Decidable (b.mean_obj ≤ a.mean_obj))

instance : IsTotal QualityRow qLe :=
  ⟨fun a b => le_total a.mean_obj b.mean_obj⟩

instance : IsTotal QualityRow qGe :=
  ⟨fun a b => le_total b.mean_obj a.mean_obj⟩

instance : IsTrans QualityRow qLe :=
  ⟨fun _ _ _ h h2 => le_trans h h2⟩

instance : IsTrans QualityRow qGe :=
  ⟨fun _ _ _ h h2 => le_trans h2 h⟩

/-- One row of the per-strategy efficiency summary. -/
structure EfficiencyRow where
  strategy : String
  mean_obj : ℚ
  mean_time : ℚ
  mean_iterations : ℚ
  performance_metric : ℚ
deriving DecidableEq, Repr

/-- The distinct strategies of the table (`groupby('strategy')` keys; rows
with a `NaN` strategy are dropped). -/
def strategyKeys (df : List PreparedRow) : List String :=
  (df.filterMap PreparedRow.strategy).dedup

/-- The rows of one strategy group. -/
def stratGroup (df : List PreparedRow) (s : String) : List PreparedRow :=
  df.filter fun r => decide (r.strategy = some s)

/-- The `groupby('strategy').agg(...)` row for strategy `s`, with the derived
`performance_metric` column; the two variants pass different `metric`
formulas. -/
def mkEfficiencyRow (metric : ℚ → ℚ → ℚ) (df : List PreparedRow) (s : String) :
    EfficiencyRow :=
  { strategy := s,
    mean_obj := qmean ((stratGroup df s).map PreparedRow.final_obj),
    mean_time := qmean ((stratGroup df s).map PreparedRow.total_time),
    mean_iterations := qmean ((stratGroup df s).map PreparedRow.iterations),
    performance_metric :=
      metric (qmean ((stratGroup df s).map PreparedRow.final_obj))
        (qmean ((stratGroup df s).map PreparedRow.total_time)) }

/-- The per-strategy efficiency summary, one row per distinct strategy. -/
def efficiency_summary (metric : ℚ → ℚ → ℚ) (df : List PreparedRow) :
    List EfficiencyRow :=
  (strategyKeys df).map (mkEfficiencyRow metric df)

/-- One row of the operator-set efficiency summary. -/
structure OpRow where
  op_set_str : String
  mean_obj : ℚ
  mean_time : ℚ
deriving DecidableEq, Repr

/-- The distinct `op_set_str` values; the column is a genuine string column
(never `NaN`), so no row is dropped by this `groupby`. -/
def opKeys (df : List PreparedRow) : List String :=
  (df.map PreparedRow.op_set_str).dedup

/-- The rows of one operator-set group. -/
def opGroup (df : List PreparedRow) (s : String) : List PreparedRow :=
  df.filter fun r => decide (r.op_set_str = s)

/-- The `groupby('op_set_str').agg(...)` row for key `s`. -/
def mkOpRow (df : List PreparedRow) (s : String) : OpRow :=
  { op_set_str := s,
    mean_obj := qmean ((opGroup df s).map PreparedRow.final_obj),
    mean_time := qmean ((opGroup df s).map PreparedRow.total_time) }

/-- Ascending order on `mean_time` (`sort_values(by='mean_time',
ascending=True)`). -/
def opLe (a b : OpRow) : Prop := a.mean_time ≤ b.mean_time

instance : DecidableRel opLe :=
  fun a b => inferInstanceAs (Decidable (a.mean_time ≤ b.mean_time))

instance : IsTotal OpRow opLe := ⟨fun a b => le_total a.mean_time b.mean_time⟩

instance : IsTrans OpRow opLe := ⟨fun _ _ _ h h2 => le_trans h h2⟩

/-- The operator-set efficiency summary, sorted ascending by `mean_time`
(identical in both variants). -/
def op_summary (df : List PreparedRow) : List OpRow :=
  List.insertionSort opLe ((opKeys df).map (mkOpRow df))

/-- Descending order on `performance_metric`
(`sort_values(by='performance_metric', ascending=False)`). -/
def effGe (a b : EfficiencyRow) : Prop :=
  b.performance_metric ≤ a.performance_metric

instance : DecidableRel effGe :=
  fun a b =>
    inferInstanceAs (Decidable (b.performance_metric ≤ a.performance_metric))

instance : IsTotal EfficiencyRow effGe :=
  ⟨fun a b => le_total b.performance_metric a.performance_metric⟩

instance : IsTrans EfficiencyRow effGe :=
  ⟨fun _ _ _ h h2 => le_trans h2 h⟩

/-- pandas `.loc[s, ...]` on the strategy-indexed efficiency summary. -/
def locStrat (t : List EfficiencyRow) (s : String) : Option EfficiencyRow :=
  t.find? fun e => decide (e.strategy = s)

/-- Outcome of the tradeoff-interpretation block: the printed narrative with
its two numbers, nothing printed, or an uncaught `KeyError` escaping from an
unguarded `.loc` lookup (possible in the minimization variant only). -/
inductive TradeoffReport where
  | raisedKeyError : TradeoffReport
  | skipped : TradeoffReport
  | narrative (timeRatio qualityDiff : ℚ) : TradeoffReport
deriving DecidableEq, Repr

/-- One row of the visualization aggregate `df_agg`. -/
structure VizRow where
  strategy : String
  alpha : ℚ
  mean_obj : ℚ
  mean_time : ℚ
deriving DecidableEq, Repr

/-- The `groupby(['strategy', 'alpha'])` key of a row, `none` when either
cell is `NaN` (such a row is dropped). -/
def vizKey (r : PreparedRow) : Option (String × ℚ) :=
  r.strategy.bind fun s => r.alpha.map fun a => (s, a)

/-- The rows of one visualization group. -/
def vizGroup (df : List PreparedRow) (k : String × ℚ) : List PreparedRow :=
  df.filter fun r => decide (r.strategy = some k.1 ∧ r.alpha = some k.2)

/-- The `df_agg` table computed by `visualize_results`: mean objective and
mean time per `(strategy, alpha)`. -/
def visualize_results (df : List PreparedRow) : List VizRow :=
  ((df.filterMap vizKey).dedup).map fun k =>
    { strategy := k.1, alpha := k.2,
      mean_obj := qmean ((vizGroup df k).map PreparedRow.final_obj),
      mean_time := qmean ((vizGroup df k).map PreparedRow.total_time) }

namespace Evaluator

/-- Function `analyze_quality_and_robustness` of evaluator.py (minimization): group by
the triple, aggregate, sort ascending by `mean_obj`, then derive
`CV_obj = std_obj / mean_obj * 100` (note: no absolute value in this
variant).  The CV column is assigned row-wise after the sort in the source;
assigning it before sorting yields the same table because the sort compares
only `mean_obj`. -/
def analyze_quality_and_robustness (sq : ℚ → ℚ) (df : List PreparedRow) :
    List QualityRow :=
  List.insertionSort qLe
    ((qualityKeys df).map (mkQualityRow sq (fun sd m => sd / m * 100) df))

/-- Function `analyze_efficiency_and_tradeoff` of evaluator.py (minimization):
`performance_metric = mean_obj * mean_time`; the strategy summary is printed
as grouped (never re-sorted by the metric); the op-set summary is sorted
ascending by `mean_time`; the interpretation block looks up `'first'` and
`'best'` with unguarded `.loc`, so a missing strategy raises `KeyError`
(after both summaries were already printed). -/
def analyze_efficiency_and_tradeoff (df : List PreparedRow) :
    List EfficiencyRow × List OpRow × TradeoffReport :=
  (efficiency_summary (fun o t => o * t) df, op_summary df,
    match locStrat (efficiency_summary (fun o t => o * t) df) "first",
        locStrat (efficiency_summary (fun o t => o * t) df) "best" with
    | some f, some b =>
        if f.mean_time < b.mean_time then
          .narrative (b.mean_time / f.mean_time)
            ((f.mean_obj / b.mean_obj - 1) * 100)
        else .skipped
    | _, _ => .raisedKeyError)

/-- Function `main_analysis` of evaluator.py: on a missing input file the loader
reports `None` and the pipeline returns at once, running none of the three
analysis stages; otherwise all three stages run on the loaded table. -/
def main_analysis (sq : ℚ → ℚ) (fs : String → Option (List Row))
    (path : String) :
    Option (List QualityRow ×
      (List EfficiencyRow × List OpRow × TradeoffReport) × List VizRow) :=
  match load_and_prepare_data fs path with
  | none => none
  | some df =>
      some (analyze_quality_and_robustness sq df,
        analyze_efficiency_and_tradeoff df, visualize_results df)

end Evaluator

namespace EvaluatorV2

/-- Function `analyze_quality_and_robustness` of evaluator_v2.py (maximization): sort
descending by `mean_obj`; `CV_obj = std_obj / np.abs(mean_obj) * 100`. -/
def analyze_quality_and_robustness (sq : ℚ → ℚ) (df : List PreparedRow) :
    List QualityRow :=
  List.insertionSort qGe
    ((qualityKeys df).map (mkQualityRow sq (fun sd m => sd / |m| * 100) df))

/-- Function `analyze_efficiency_and_tradeoff` of evaluator_v2.py (maximization):
`performance_metric = mean_obj / mean_time`; the printed strategy summary is
sorted descending by the metric; the interpretation block is wrapped in
`try/except KeyError: pass`, so a missing `'first'`/`'best'` silently skips
the narrative; its quality gap is `(best.mean_obj / first.mean_obj - 1) *
100` (the variants disagree here as well). -/
def analyze_efficiency_and_tradeoff (df : List PreparedRow) :
    List EfficiencyRow × List OpRow × TradeoffReport :=
  (List.insertionSort effGe (efficiency_summary (fun o t => o / t) df),
    op_summary df,
    match locStrat (efficiency_summary (fun o t => o / t) df) "first",
        locStrat (efficiency_summary (fun o t => o / t) df) "best" with
    | some f, some b =>
        if f.mean_time < b.mean_time then
          .narrative (b.mean_time / f.mean_time)
            ((b.mean_obj / f.mean_obj - 1) * 100)
        else .skipped
    | _, _ => .skipped)

end EvaluatorV2

/-- Helper to build a prepared row the way the loader does: `op_set_str` is
the string rendering of `op_set`, `iterations` is irrelevant to the claims
below and fixed at 0. -/
def sampleRow (s : Option String) (a : Option ℚ) (o : Option String)
    (sd ob t : ℚ) : PreparedRow :=
  { strategy := s, alpha := a, op_set := o, op_set_str := strOfOpSet o,
    seed := sd, final_obj := ob, total_time := t, iterations := 0 }

/-- Two runs of one configuration with negative objectives:
mean objective -20, sample variance 200. -/
def c1NegTable : List PreparedRow :=
  [sampleRow (some "a") (some 1) (some "(swap)") 1 (-10) 1,
   sampleRow (some "a") (some 1) (some "(swap)") 2 (-30) 1]

/-- Two runs of one configuration with positive objectives:
mean objective 20, sample variance 200. -/
def c1PosTable : List PreparedRow :=
  [sampleRow (some "a") (some 1) (some "(swap)") 1 10 1,
   sampleRow (some "a") (some 1) (some "(swap)") 2 30 1]

/-- A table containing the strategy "first" but no "best". -/
def c2Table : List PreparedRow :=
  [sampleRow (some "first") (some 1) (some "(swap)") 1 10 2]

/-- Two strategies whose alphabetical order is the opposite of descending
performance-metric order (metrics 1 and 10 in the minimization variant). -/
def c3Table : List PreparedRow :=
  [sampleRow (some "a") (some 1) (some "(swap)") 1 1 1,
   sampleRow (some "b") (some 1) (some "(swap)") 2 10 1]

/-- A table whose single configuration has exactly one run. -/
def c4Table : List PreparedRow :=
  [sampleRow (some "a") (some 1) (some "(swap)") 1 10 2]

/-- Scenario B of the spec: "first" with mean_time 1 and mean_obj 100,
"best" with mean_time 5 and mean_obj 90. -/
def c7Table : List PreparedRow :=
  [sampleRow (some "best") (some 1) (some "(swap)") 1 90 5,
   sampleRow (some "first") (some 1) (some "(swap)") 2 100 1]

/-- A one-row table for exercising the grouping invariants. -/
def c8Table : List PreparedRow :=
  [sampleRow (some "a") (some 2) (some "(ins)") 5 4 3]

/-- Both "first" and "best" present with equal mean times. -/
def c9Table : List PreparedRow :=
  [sampleRow (some "best") (some 1) (some "(swap)") 1 90 5,
   sampleRow (some "first") (some 1) (some "(swap)") 2 100 5]

/-- A fully populated row. -/
def c10RowA : PreparedRow := sampleRow (some "a") (some 1) (some "(swap)") 1 0 0

/-- A row with a missing strategy but a present op_set. -/
def c10RowB : PreparedRow := sampleRow none (some 1) (some "(swap)") 2 100 100

/-- A row with a missing alpha. -/
def c10RowC : PreparedRow := sampleRow (some "a") none (some "(swap)") 3 50 7

/-- A raw CSV row with every cell present. -/
def c10RawA : Row :=
  { strategy := some "a", alpha := some 1, op_set := some "(swap)", seed := 1,
    final_obj := 0, total_time := 0, iterations := 0 }

/-- A raw CSV row whose strategy and op_set cells are missing. -/
def c10RawB : Row :=
  { strategy := none, alpha := some 1, op_set := none, seed := 2,
    final_obj := 100, total_time := 100, iterations := 0 }

/-- A file system holding one CSV with rows `c10RawA` and `c10RawB`. -/
def c10Fs : String → Option (List Row) := fun _ => some [c10RawA, c10RawB]

/-- The table the loader produces from `c10Fs`. -/
def c10Df : List PreparedRow := List.map prepare [c10RawA, c10RawB]

/-- Membership is invariant under the sorting step. -/
theorem mem_insertionSort_iff {α : Type} (r : α → α → Prop) [DecidableRel r]
    {a : α} {l : List α} : a ∈ List.insertionSort r l ↔ a ∈ l :=
  (List.perm_insertionSort r l).mem_iff

/-- Membership in a sorted image of a list. -/
theorem mem_sort_map {α β : Type} (r : α → α → Prop) [DecidableRel r]
    (f : β → α) (l : List β) (a : α) :
    a ∈ List.insertionSort r (l.map f) ↔ ∃ b ∈ l, f b = a := by
  rw [mem_insertionSort_iff, List.mem_map]

/-- The aggregated row of a group carries that group's key. -/
theorem qKey_mk (sq : ℚ → ℚ) (cv : ℚ → ℚ → ℚ) (df : List PreparedRow)
    (k : String × ℚ × String) : qKey (mkQualityRow sq cv df k) = k := rfl

/-- Column `num_runs` counts the rows of the group. -/
theorem numRuns_mk (sq : ℚ → ℚ) (cv : ℚ → ℚ → ℚ) (df : List PreparedRow)
    (k : String × ℚ × String) :
    (mkQualityRow sq cv df k).num_runs = (groupRows df k).length := by
  simp [mkQualityRow]

/-- The group keys appearing in a sorted quality summary are exactly the
distinct row keys of the source table. -/
theorem quality_keys_char (r : QualityRow → QualityRow → Prop)
    [DecidableRel r] (sq : ℚ → ℚ) (cv : ℚ → ℚ → ℚ) (df : List PreparedRow)
    (k : String × ℚ × String) :
    k ∈ (List.insertionSort r
        ((qualityKeys df).map (mkQualityRow sq cv df))).map qKey ↔
      k ∈ df.filterMap rowKey := by
  rw [List.mem_map]
  constructor
  · rintro ⟨q, hq, rfl⟩
    rcases (mem_sort_map r _ _ q).mp hq with ⟨k', hk', rfl⟩
    rw [qKey_mk]
    exact List.mem_dedup.mp hk'
  · intro hk
    exact ⟨mkQualityRow sq cv df k,
      (mem_sort_map r _ _ _).mpr ⟨k, List.mem_dedup.mpr hk, rfl⟩,
      qKey_mk sq cv df k⟩

/-- Column `num_runs` of any sorted quality-summary row counts the source rows
carrying its key. -/
theorem num_runs_char (r : QualityRow → QualityRow → Prop)
    [DecidableRel r] (sq : ℚ → ℚ) (cv : ℚ → ℚ → ℚ) (df : List PreparedRow) :
    ∀ q ∈ List.insertionSort r
        ((qualityKeys df).map (mkQualityRow sq cv df)),
      q.num_runs = df.countP (matchesKey (qKey q)) := by
  intro q hq
  rcases (mem_sort_map r _ _ q).mp hq with ⟨k, _, rfl⟩
  rw [qKey_mk, numRuns_mk, groupRows, ← List.countP_eq_length_filter]

/-- C6 (confirmed): the quality summary is totally ordered by `mean_obj`
ascending in the minimization variant and descending in the maximization
variant, and the operator-set summary is ordered ascending by `mean_time`
in both variants. -/
theorem sort_invariant (sq : ℚ → ℚ) (df : List PreparedRow) :
    List.Sorted qLe (Evaluator.analyze_quality_and_robustness sq df) ∧
    List.Sorted qGe (EvaluatorV2.analyze_quality_and_robustness sq df) ∧
    List.Sorted opLe (Evaluator.analyze_efficiency_and_tradeoff df).2.1 ∧
    List.Sorted opLe (EvaluatorV2.analyze_efficiency_and_tradeoff df).2.1 :=
  ⟨List.sorted_insertionSort qLe _, List.sorted_insertionSort qGe _,
   List.sorted_insertionSort opLe _, List.sorted_insertionSort opLe _⟩

/-- C7 (confirmed): on a table where strategy "first" has mean_time 1 and
mean_obj 100 and strategy "best" has mean_time 5 and mean_obj 90, the
minimization variant's tradeoff narrative fires (1 < 5) with
`time_ratio = 5` and `quality_diff = (100 / 90 - 1) * 100 = 100 / 9`. -/
theorem tradeoff_scenario_b :
    (Evaluator.analyze_efficiency_and_tradeoff c7Table).2.2 =
      TradeoffReport.narrative 5 (100 / 9) := by
  with_unfolding_all decide

/-- Both derived columns of a single-run group are undefined. -/
theorem std_none_single (sq : ℚ → ℚ) (cv : ℚ → ℚ → ℚ)
    (df : List PreparedRow) (k : String × ℚ × String)
    (h : df.countP (matchesKey k) = 1) :
    (mkQualityRow sq cv df k).std_obj = none ∧
      (mkQualityRow sq cv df k).CV_obj = none := by
  have hlen : (groupRows df k).length = 1 := by
    rw [groupRows, ← List.countP_eq_length_filter]; exact h
  have h2 : ¬ 2 ≤ (groupRows df k).length := by omega
  constructor
  · show stdObj sq df k = none
    rw [stdObj, if_neg h2]
  · show (stdObj sq df k).map _ = none
    rw [stdObj, if_neg h2]
    rfl

/-- C4 (confirmed): a `(strategy, alpha, op_set_str)` group with exactly one
source row has `std_obj` equal to the undefined sentinel (`none`, the
embedding of pandas' NaN), in particular never zero, and its `CV_obj` is
likewise undefined — in both variants. -/
theorem single_run_std_undefined (sq : ℚ → ℚ) (df : List PreparedRow) :
    (∀ q ∈ Evaluator.analyze_quality_and_robustness sq df,
       df.countP (matchesKey (qKey q)) = 1 →
         q.std_obj = none ∧ q.std_obj ≠ some 0 ∧ q.CV_obj = none) ∧
    (∀ q ∈ EvaluatorV2.analyze_quality_and_robustness sq df,
       df.countP (matchesKey (qKey q)) = 1 →
         q.std_obj = none ∧ q.std_obj ≠ some 0 ∧ q.CV_obj = none) := by
  constructor
  · intro q hq hcount
    rcases (mem_sort_map qLe _ _ q).mp hq with ⟨k, _, rfl⟩
    rw [qKey_mk] at hcount
    rcases std_none_single sq _ df k hcount with ⟨h1, h2⟩
    exact ⟨h1, by rw [h1]; exact Option.noConfusion, h2⟩
  · intro q hq hcount
    rcases (mem_sort_map qGe _ _ q).mp hq with ⟨k, _, rfl⟩
    rw [qKey_mk] at hcount
    rcases std_none_single sq _ df k hcount with ⟨h1, h2⟩
    exact ⟨h1, by rw [h1]; exact Option.noConfusion, h2⟩

/-- C4 witness: on a one-run table the summary's single row (of either
variant) indeed reports undefined `std_obj` and `CV_obj`. -/
theorem single_run_std_undefined_witness :
    ({ strategy := "a", alpha := 1, op_set_str := "(swap)", mean_obj := 10,
       std_obj := none, mean_time := 2, num_runs := 1,
       CV_obj := none } : QualityRow).std_obj = none ∧
    ({ strategy := "a", alpha := 1, op_set_str := "(swap)", mean_obj := 10,
       std_obj := none, mean_time := 2, num_runs := 1,
       CV_obj := none } : QualityRow).std_obj ≠ some 0 ∧
    ({ strategy := "a", alpha := 1, op_set_str := "(swap)", mean_obj := 10,
       std_obj := none, mean_time := 2, num_runs := 1,
       CV_obj := none } : QualityRow).CV_obj = none :=
  (single_run_std_undefined (fun x => x) c4Table).1
    { strategy := "a", alpha := 1, op_set_str := "(swap)", mean_obj := 10,
      std_obj := none, mean_time := 2, num_runs := 1, CV_obj := none }
    (by with_unfolding_all decide) (by with_unfolding_all decide)

/-- C8 (confirmed): in both variants the set of group keys of the quality
summary equals the set of distinct `(strategy, alpha, op_set_str)` triples
of the source table, and each summary row's `num_runs` equals the number of
source rows carrying its triple. -/
theorem group_keys_and_counts (sq : ℚ → ℚ) (df : List PreparedRow) :
    (∀ k, k ∈ (Evaluator.analyze_quality_and_robustness sq df).map qKey ↔
       k ∈ df.filterMap rowKey) ∧
    (∀ q ∈ Evaluator.analyze_quality_and_robustness sq df,
       q.num_runs = df.countP (matchesKey (qKey q))) ∧
    (∀ k, k ∈ (EvaluatorV2.analyze_quality_and_robustness sq df).map qKey ↔
       k ∈ df.filterMap rowKey) ∧
    (∀ q ∈ EvaluatorV2.analyze_quality_and_robustness sq df,
       q.num_runs = df.countP (matchesKey (qKey q))) :=
  ⟨fun k => quality_keys_char qLe sq _ df k,
   num_runs_char qLe sq _ df,
   fun k => quality_keys_char qGe sq _ df k,
   num_runs_char qGe sq _ df⟩

/-- C8 witness: on a concrete one-row table the minimization summary's row
has `num_runs` equal to the source count of its triple. -/
theorem group_keys_and_counts_witness :
    ({ strategy := "a", alpha := 2, op_set_str := "(ins)", mean_obj := 4,
       std_obj := none, mean_time := 3, num_runs := 1,
       CV_obj := none } : QualityRow).num_runs =
      c8Table.countP (matchesKey (qKey
        { strategy := "a", alpha := 2, op_set_str := "(ins)", mean_obj := 4,
          std_obj := none, mean_time := 3, num_runs := 1,
          CV_obj := none })) :=
  (group_keys_and_counts (fun x => x) c8Table).2.1
    { strategy := "a", alpha := 2, op_set_str := "(ins)", mean_obj := 4,
      std_obj := none, mean_time := 3, num_runs := 1, CV_obj := none }
    (by with_unfolding_all decide)

/-- Every row of a strategy summary satisfies its variant's metric formula. -/
theorem metric_formula (m : ℚ → ℚ → ℚ) (df : List PreparedRow) :
    ∀ e ∈ efficiency_summary m df,
      e.performance_metric = m e.mean_obj e.mean_time := by
  intro e he
  rcases List.mem_map.mp he with ⟨s, _, rfl⟩
  rfl

/-- The strategy column of the (un-re-sorted) strategy summary is exactly the
group-key list. -/
theorem map_strategy_summary (m : ℚ → ℚ → ℚ) (df : List PreparedRow) :
    (efficiency_summary m df).map EfficiencyRow.strategy = strategyKeys df := by
  rw [efficiency_summary, List.map_map]
  show List.map (fun s => s) (strategyKeys df) = strategyKeys df
  simp

/-- C1 (corrected, counterexample): in the minimization variant, on a group
with negative mean objective (mean -20, sample std 200 under the identity
square root), `CV_obj` is `-1000`, not `std_obj / |mean_obj| * 100 = 1000`:
evaluator.py line 45 divides by the signed mean, without `abs`. -/
theorem cv_formula_counterexample :
    ¬ ∀ q ∈ Evaluator.analyze_quality_and_robustness (fun x => x) c1NegTable,
        q.mean_obj ≠ 0 →
          q.CV_obj = q.std_obj.map fun sd => sd / |q.mean_obj| * 100 := by
  with_unfolding_all decide

/-- C1 (corrected, amended): the maximization variant derives
`CV_obj = std_obj / |mean_obj| * 100` for every group; the minimization
variant derives `CV_obj = std_obj / mean_obj * 100` (signed mean, no
absolute value), which agrees with the claimed formula exactly on groups
with positive mean objective. -/
theorem cv_formula_amended (sq : ℚ → ℚ) (df : List PreparedRow) :
    (∀ q ∈ EvaluatorV2.analyze_quality_and_robustness sq df,
       q.CV_obj = q.std_obj.map fun sd => sd / |q.mean_obj| * 100) ∧
    (∀ q ∈ Evaluator.analyze_quality_and_robustness sq df, q.mean_obj ≠ 0 →
       q.CV_obj = q.std_obj.map fun sd => sd / q.mean_obj * 100) ∧
    (∀ q ∈ Evaluator.analyze_quality_and_robustness sq df, 0 < q.mean_obj →
       q.CV_obj = q.std_obj.map fun sd => sd / |q.mean_obj| * 100) := by
  refine ⟨?_, ?_, ?_⟩
  · intro q hq
    rcases (mem_sort_map qGe _ _ q).mp hq with ⟨k, _, rfl⟩
    rfl
  · intro q hq _
    rcases (mem_sort_map qLe _ _ q).mp hq with ⟨k, _, rfl⟩
    rfl
  · intro q hq hpos
    rcases (mem_sort_map qLe _ _ q).mp hq with ⟨k, _, rfl⟩
    simp only [abs_of_pos hpos]
    rfl

/-- The quality-summary row of the two-run positive table (identity square
root): mean 20, sample std 200, CV 1000. -/
def c1SummaryRow : QualityRow :=
  { strategy := "a", alpha := 1, op_set_str := "(swap)", mean_obj := 20,
    std_obj := some 200, mean_time := 1, num_runs := 2,
    CV_obj := some 1000 }

/-- C1 witness: on a positive-mean table the amended statements hold at the
concrete summary row of either variant. -/
theorem cv_formula_amended_witness :
    c1SummaryRow.CV_obj =
      c1SummaryRow.std_obj.map (fun sd => sd / |c1SummaryRow.mean_obj| * 100) ∧
    c1SummaryRow.CV_obj =
      c1SummaryRow.std_obj.map (fun sd => sd / c1SummaryRow.mean_obj * 100) ∧
    c1SummaryRow.CV_obj =
      c1SummaryRow.std_obj.map (fun sd => sd / |c1SummaryRow.mean_obj| * 100) :=
  ⟨(cv_formula_amended (fun x => x) c1PosTable).1 c1SummaryRow
      (by with_unfolding_all decide),
   (cv_formula_amended (fun x => x) c1PosTable).2.1 c1SummaryRow
      (by with_unfolding_all decide) (by with_unfolding_all decide),
   (cv_formula_amended (fun x => x) c1PosTable).2.2 c1SummaryRow
      (by with_unfolding_all decide) (by with_unfolding_all decide)⟩

/-- C3 (corrected, counterexample): in the minimization variant the reported
strategy efficiency summary is not sorted descending by
`performance_metric`: on `c3Table` it appears in group-key order with
metrics `[1, 10]`.  evaluator.py line 74 prints the grouped table without
any `sort_values` on the metric. -/
theorem efficiency_sort_counterexample :
    ¬ List.Sorted effGe (Evaluator.analyze_efficiency_and_tradeoff c3Table).1 := by
  with_unfolding_all decide

/-- C3 (corrected, amended): `performance_metric` is
`mean_obj * mean_time` in the minimization variant and
`mean_obj / mean_time` in the maximization variant; only the maximization
variant reports the summary sorted descending by the metric, while the
minimization variant reports it in `groupby` key order (its strategy column
is exactly the group-key list). -/
theorem efficiency_sort_amended (df : List PreparedRow) :
    (∀ e ∈ (Evaluator.analyze_efficiency_and_tradeoff df).1,
       e.performance_metric = e.mean_obj * e.mean_time) ∧
    (∀ e ∈ (EvaluatorV2.analyze_efficiency_and_tradeoff df).1,
       e.performance_metric = e.mean_obj / e.mean_time) ∧
    List.Sorted effGe (EvaluatorV2.analyze_efficiency_and_tradeoff df).1 ∧
    (Evaluator.analyze_efficiency_and_tradeoff df).1.map
        EfficiencyRow.strategy = strategyKeys df := by
  refine ⟨?_, ?_, List.sorted_insertionSort effGe _, ?_⟩
  · intro e he
    exact metric_formula (fun o t => o * t) df e he
  · intro e he
    exact metric_formula (fun o t => o / t) df e
      ((mem_insertionSort_iff effGe).mp he)
  · exact map_strategy_summary (fun o t => o * t) df

/-- C3 witness: the amended statement at the concrete table `c3Table`, with
the metric formula instantiated at the summary row of strategy "a". -/
theorem efficiency_sort_amended_witness :
    (mkEfficiencyRow (fun o t => o * t) c3Table "a").performance_metric =
      (mkEfficiencyRow (fun o t => o * t) c3Table "a").mean_obj *
        (mkEfficiencyRow (fun o t => o * t) c3Table "a").mean_time ∧
    (Evaluator.analyze_efficiency_and_tradeoff c3Table).1.map
        EfficiencyRow.strategy = strategyKeys c3Table :=
  ⟨(efficiency_sort_amended c3Table).1 _ (by with_unfolding_all decide),
   (efficiency_sort_amended c3Table).2.2.2⟩

/-- The strategy of any summary row occurs in the source strategy column. -/
theorem strategy_of_mem_eff {m : ℚ → ℚ → ℚ} {df : List PreparedRow}
    {e : EfficiencyRow} (he : e ∈ efficiency_summary m df) :
    e.strategy ∈ df.filterMap PreparedRow.strategy := by
  rcases List.mem_map.mp he with ⟨s, hs, rfl⟩
  show s ∈ df.filterMap PreparedRow.strategy
  exact List.mem_dedup.mp hs

/-- A strategy absent from the table is absent from the summary's index. -/
theorem locStrat_eq_none (m : ℚ → ℚ → ℚ) (df : List PreparedRow) (s : String)
    (h : s ∉ df.filterMap PreparedRow.strategy) :
    locStrat (efficiency_summary m df) s = none := by
  rw [locStrat, List.find?_eq_none]
  intro e he
  simp only [decide_eq_true_eq]
  intro heq
  exact h (heq ▸ strategy_of_mem_eff he)

/-- Looking a strategy up in a summary is looking it up among the group
keys and aggregating. -/
theorem locStrat_summary (m : ℚ → ℚ → ℚ) (df : List PreparedRow)
    (s : String) :
    locStrat (efficiency_summary m df) s =
      ((strategyKeys df).find? fun s2 => decide (s2 = s)).map
        (mkEfficiencyRow m df) := by
  rw [locStrat, efficiency_summary]
  induction strategyKeys df with
  | nil => rfl
  | cons a l ih =>
      rw [List.map_cons, List.find?_cons, List.find?_cons]
      by_cases h : a = s
      · simp [mkEfficiencyRow, h]
      · simp [mkEfficiencyRow, h, ih]

/-- A successful lookup returns the aggregation of the looked-up strategy. -/
theorem locStrat_some_elim {m : ℚ → ℚ → ℚ} {df : List PreparedRow}
    {s : String} {f : EfficiencyRow}
    (hf : locStrat (efficiency_summary m df) s = some f) :
    ((strategyKeys df).find? fun s2 => decide (s2 = s)) = some s ∧
      f = mkEfficiencyRow m df s := by
  rw [locStrat_summary] at hf
  rcases Option.map_eq_some'.mp hf with ⟨s0, hfind, hmk⟩
  have hp := List.find?_some hfind
  simp only [decide_eq_true_eq] at hp
  subst hp
  exact ⟨hfind, hmk.symm⟩

/-- C2 (corrected, counterexample): on a table with strategy "first" but no
"best", the minimization variant does not skip silently: its unguarded
`.loc['best', ...]` lookup raises a `KeyError` (evaluator.py line 84 has no
`try/except`, unlike evaluator_v2.py lines 79-88). -/
theorem missing_strategy_counterexample :
    "best" ∉ c2Table.filterMap PreparedRow.strategy ∧
    (Evaluator.analyze_efficiency_and_tradeoff c2Table).2.2 =
      TradeoffReport.raisedKeyError := by
  with_unfolding_all decide

/-- C2 (corrected, amended): when "first" or "best" is absent, both variants
still produce the strategy and operator-set efficiency summaries, and the
maximization variant skips the tradeoff comparison without error; the
minimization variant, however, raises an uncaught `KeyError` from the
interpretation block (after printing both summaries). -/
theorem missing_strategy_amended (df : List PreparedRow)
    (h : "first" ∉ df.filterMap PreparedRow.strategy ∨
      "best" ∉ df.filterMap PreparedRow.strategy) :
    (Evaluator.analyze_efficiency_and_tradeoff df).2.2 =
      TradeoffReport.raisedKeyError ∧
    (EvaluatorV2.analyze_efficiency_and_tradeoff df).2.2 =
      TradeoffReport.skipped ∧
    (Evaluator.analyze_efficiency_and_tradeoff df).1 =
      efficiency_summary (fun o t => o * t) df ∧
    (Evaluator.analyze_efficiency_and_tradeoff df).2.1 = op_summary df ∧
    (EvaluatorV2.analyze_efficiency_and_tradeoff df).1 =
      List.insertionSort effGe (efficiency_summary (fun o t => o / t) df) ∧
    (EvaluatorV2.analyze_efficiency_and_tradeoff df).2.1 = op_summary df := by
  refine ⟨?_, ?_, rfl, rfl, rfl, rfl⟩
  · rcases h with h | h
    · have h1 := locStrat_eq_none (fun o t => o * t) df "first" h
      rcases h2 : locStrat (efficiency_summary (fun o t => o * t) df) "best"
          with _ | b <;>
        simp [Evaluator.analyze_efficiency_and_tradeoff, h1, h2]
    · have h1 := locStrat_eq_none (fun o t => o * t) df "best" h
      rcases h2 : locStrat (efficiency_summary (fun o t => o * t) df) "first"
          with _ | f <;>
        simp [Evaluator.analyze_efficiency_and_tradeoff, h1, h2]
  · rcases h with h | h
    · have h1 := locStrat_eq_none (fun o t => o / t) df "first" h
      rcases h2 : locStrat (efficiency_summary (fun o t => o / t) df) "best"
          with _ | b <;>
        simp [EvaluatorV2.analyze_efficiency_and_tradeoff, h1, h2]
    · have h1 := locStrat_eq_none (fun o t => o / t) df "best" h
      rcases h2 : locStrat (efficiency_summary (fun o t => o / t) df) "first"
          with _ | f <;>
        simp [EvaluatorV2.analyze_efficiency_and_tradeoff, h1, h2]

/-- C2 witness: the amended statement evaluated on the concrete table with
only a "first" strategy. -/
theorem missing_strategy_amended_witness :
    (Evaluator.analyze_efficiency_and_tradeoff c2Table).2.2 =
      TradeoffReport.raisedKeyError ∧
    (EvaluatorV2.analyze_efficiency_and_tradeoff c2Table).2.2 =
      TradeoffReport.skipped :=
  ⟨(missing_strategy_amended c2Table
      (Or.inr (by with_unfolding_all decide))).1,
   (missing_strategy_amended c2Table
      (Or.inr (by with_unfolding_all decide))).2.1⟩

/-- C9 (confirmed): when both "first" and "best" are present but "first" is
not strictly faster on mean time, both variants emit no tradeoff narrative,
raise no error, and still return both efficiency summaries. -/
theorem no_narrative_when_first_not_faster (df : List PreparedRow)
    (f b : EfficiencyRow)
    (hf : locStrat (efficiency_summary (fun o t => o * t) df) "first" = some f)
    (hb : locStrat (efficiency_summary (fun o t => o * t) df) "best" = some b)
    (hle : b.mean_time ≤ f.mean_time) :
    Evaluator.analyze_efficiency_and_tradeoff df =
      (efficiency_summary (fun o t => o * t) df, op_summary df,
        TradeoffReport.skipped) ∧
    EvaluatorV2.analyze_efficiency_and_tradeoff df =
      (List.insertionSort effGe (efficiency_summary (fun o t => o / t) df),
        op_summary df, TradeoffReport.skipped) := by
  rcases locStrat_some_elim hf with ⟨hfind1, rfl⟩
  rcases locStrat_some_elim hb with ⟨hfind2, rfl⟩
  have hf2 : locStrat (efficiency_summary (fun o t => o / t) df) "first" =
      some (mkEfficiencyRow (fun o t => o / t) df "first") := by
    rw [locStrat_summary, hfind1]
    rfl
  have hb2 : locStrat (efficiency_summary (fun o t => o / t) df) "best" =
      some (mkEfficiencyRow (fun o t => o / t) df "best") := by
    rw [locStrat_summary, hfind2]
    rfl
  have hnlt : ¬ (mkEfficiencyRow (fun o t => o * t) df "first").mean_time <
      (mkEfficiencyRow (fun o t => o * t) df "best").mean_time :=
    not_lt.mpr hle
  have hnlt2 : ¬ (mkEfficiencyRow (fun o t => o / t) df "first").mean_time <
      (mkEfficiencyRow (fun o t => o / t) df "best").mean_time := hnlt
  constructor
  · simp only [Evaluator.analyze_efficiency_and_tradeoff, hf, hb]
    rw [if_neg hnlt]
  · simp only [EvaluatorV2.analyze_efficiency_and_tradeoff, hf2, hb2]
    rw [if_neg hnlt2]

/-- C9 witness: on a table where "first" and "best" have equal mean times,
both variants skip the narrative without error. -/
theorem no_narrative_when_first_not_faster_witness :
    (Evaluator.analyze_efficiency_and_tradeoff c9Table).2.2 =
      TradeoffReport.skipped ∧
    (EvaluatorV2.analyze_efficiency_and_tradeoff c9Table).2.2 =
      TradeoffReport.skipped := by
  have h := no_narrative_when_first_not_faster c9Table
    (mkEfficiencyRow (fun o t => o * t) c9Table "first")
    (mkEfficiencyRow (fun o t => o * t) c9Table "best")
    (by with_unfolding_all decide) (by with_unfolding_all decide)
    (by with_unfolding_all decide)
  rw [h.1, h.2]
  exact ⟨rfl, rfl⟩

/-- C5 (confirmed): a missing input file makes the loader return the
not-found signal (`none`) rather than failing, and the pipeline then runs
none of the analysis stages; on a successful load, every returned row's
`op_set_str` equals the string rendering of its `op_set` cell. -/
theorem loader_contract (sq : ℚ → ℚ) (fs : String → Option (List Row))
    (path : String) :
    (fs path = none → Evaluator.main_analysis sq fs path = none) ∧
    (∀ df, load_and_prepare_data fs path = some df →
       ∀ r ∈ df, r.op_set_str = r.op_set.getD "nan") := by
  constructor
  · intro h
    simp [Evaluator.main_analysis, load_and_prepare_data, h]
  · intro df hdf r hr
    rw [load_and_prepare_data] at hdf
    rcases hx : fs path with _ | rows
    · rw [hx] at hdf
      cases hdf
    · rw [hx] at hdf
      have hmap : rows.map prepare = df := by simpa using hdf
      subst hmap
      rcases List.mem_map.mp hr with ⟨r0, _, rfl⟩
      rfl

/-- A raw row whose op_set cell is missing. -/
def c5Raw : Row :=
  { strategy := some "x", alpha := some 1, op_set := none, seed := 1,
    final_obj := 2, total_time := 3, iterations := 4 }

/-- C5 witness: the contract at a file system without the file, and at one
holding a single row with a missing op_set. -/
theorem loader_contract_witness :
    Evaluator.main_analysis (fun x => x) (fun _ => none) "results.csv" =
      none ∧
    (prepare c5Raw).op_set_str = (prepare c5Raw).op_set.getD "nan" :=
  ⟨(loader_contract (fun x => x) (fun _ => none) "results.csv").1 rfl,
   (loader_contract (fun x => x) (fun _ => some [c5Raw]) "results.csv").2
     [prepare c5Raw] rfl (prepare c5Raw) (by simp)⟩

/-- C10 (corrected, counterexample): a row with a missing strategy is not
excluded from the operator-set summary (removing it changes that summary),
and a row with a missing alpha is not excluded from the per-strategy
efficiency summary — both groupbys key on columns that are present on those
rows, so pandas keeps them. -/
theorem null_key_exclusion_counterexample :
    (c10RowB.strategy = none ∧
      op_summary [c10RowA, c10RowB] ≠ op_summary [c10RowA]) ∧
    (c10RowC.alpha = none ∧
      efficiency_summary (fun o t => o * t) [c10RowA, c10RowC] ≠
        efficiency_summary (fun o t => o * t) [c10RowA]) := by
  with_unfolding_all decide

/-- C10 (corrected, amended): on a loaded table, a row missing strategy or
alpha contributes no key and belongs to no group of the summaries keyed on
both columns (quality, keyed on the triple, and visualization, keyed on the
pair); a row missing strategy belongs to no strategy-efficiency group; the
operator-set summary excludes nothing — every row belongs to its
`op_set_str` group, whose key always exists — and a missing `op_set` is
rendered by the loader as the valid group key `"nan"`. -/
theorem null_key_exclusion_amended (fs : String → Option (List Row))
    (path : String) (df : List PreparedRow)
    (hload : load_and_prepare_data fs path = some df) :
    ∀ r ∈ df,
      ((r.strategy = none ∨ r.alpha = none) →
         rowKey r = none ∧ ∀ k, r ∉ groupRows df k) ∧
      ((r.strategy = none ∨ r.alpha = none) →
         vizKey r = none ∧ ∀ k, r ∉ vizGroup df k) ∧
      (r.strategy = none → ∀ s, r ∉ stratGroup df s) ∧
      (r ∈ opGroup df r.op_set_str ∧ r.op_set_str ∈ opKeys df) ∧
      (r.op_set = none → r.op_set_str = "nan") := by
  intro r hr
  refine ⟨?_, ?_, ?_, ⟨?_, ?_⟩, ?_⟩
  · intro h
    constructor
    · rcases h with h | h <;> simp [rowKey, h]
    · intro k hk
      rw [groupRows, List.mem_filter] at hk
      have hm := hk.2
      simp only [matchesKey, decide_eq_true_eq] at hm
      rcases h with h | h <;> simp [h] at hm
  · intro h
    constructor
    · rcases h with h | h <;> simp [vizKey, h]
    · intro k hk
      rw [vizGroup, List.mem_filter] at hk
      have hm := hk.2
      simp only [decide_eq_true_eq] at hm
      rcases h with h | h <;> simp [h] at hm
  · intro h s hk
    rw [stratGroup, List.mem_filter] at hk
    have hm := hk.2
    simp only [decide_eq_true_eq] at hm
    simp [h] at hm
  · rw [opGroup, List.mem_filter]
    exact ⟨hr, decide_eq_true rfl⟩
  · exact List.mem_dedup.mpr (List.mem_map_of_mem PreparedRow.op_set_str hr)
  · intro h
    rw [load_and_prepare_data] at hload
    rcases hx : fs path with _ | rows
    · rw [hx] at hload
      cases hload
    · rw [hx] at hload
      have hmap : rows.map prepare = df := by simpa using hload
      subst hmap
      rcases List.mem_map.mp hr with ⟨r0, _, rfl⟩
      show strOfOpSet r0.op_set = "nan"
      rw [show r0.op_set = none from h]
      rfl

/-- C10 witness: on the loaded two-row table, the row with the missing
strategy has no group key, is not in the populated quality group, and its
missing op_set was rendered as the key "nan". -/
theorem null_key_exclusion_amended_witness :
    rowKey (prepare c10RawB) = none ∧
    prepare c10RawB ∉ groupRows c10Df ("a", 1, "(swap)") ∧
    (prepare c10RawB).op_set_str = "nan" := by
  have h := null_key_exclusion_amended c10Fs "results.csv" c10Df rfl
    (prepare c10RawB) (by with_unfolding_all decide)
  exact ⟨(h.1 (Or.inl rfl)).1, (h.1 (Or.inl rfl)).2 ("a", 1, "(swap)"),
    h.2.2.2.2 rfl⟩

end Nicolaas
